import Mathlib

/-!
Verification of `ethcore/src/engines/authority_round/util.rs` (the AuRa engine
contract-call utility of poanetwork/parity).

The file embeds the Rust module shallowly:

* `Bytes`, `Address`, `BlockId`, `Action` and the external error enums
  (`transaction.Error`, `EthabiError`) mirror the Rust data types, with `Nat`
  standing in for `U256`/`H160`.
* The external client is a record of its two primitives (`call_contract` and
  `transact`), obtained through the `as_full_client` capability check, exactly
  the surface the Rust code consumes.
* `BoundContract.call_const` and `BoundContract.schedule_service_transaction`
  are line-by-line translations of the Rust functions.  Each returns, next to
  its `Result`, the list of observable `Event`s it produced (primitive
  invocations and diagnostic warnings), so that non-invocation and
  warning-count properties can be stated.
* The pending-transaction pool (outside the source file) is modelled from the
  spec where a claim needs it; such definitions say so in their doc comment.
-/

/-- Raw byte payloads (`ethabi::Bytes` / `Vec<u8>` in the source). -/
abbrev Bytes := List Nat

/-- Contract addresses (`ethereum_types::Address`, opaque here). -/
abbrev Address := Nat

/-- Block selector, mirroring `client::BlockId` of the source repository. -/
inductive BlockId where
  | Hash (h : Nat)
  | Number (n : Nat)
  | Earliest
  | Latest
  deriving DecidableEq, Repr

namespace transaction

/-- Transaction action, mirroring `transaction::Action`. -/
inductive Action where
  | Create
  | Call (addr : Address)
  deriving DecidableEq, Repr

/-- The transaction-queue rejection reasons (`transaction::Error` of the
repository, external to the verified file; `Nat` stands in for `U256`). -/
inductive Error where
  | AlreadyImported
  | Old
  | TooCheapToReplace
  | LimitReached
  | InsufficientGasPrice (minimal got : Nat)
  | InsufficientGas (minimal got : Nat)
  | InsufficientBalance (balance cost : Nat)
  | GasLimitExceeded (limit got : Nat)
  | InvalidGasLimit (got : Nat)
  | InvalidSignature (msg : String)
  | InvalidChainId
  | InvalidRlp (msg : String)
  | NotAllowed
  | SenderBanned
  | RecipientBanned
  | CodeBanned
  deriving DecidableEq, Repr

end transaction

/-- Decoding errors of the external `ethabi` crate, carried opaquely. -/
inductive EthabiError where
  | InvalidName (name : String)
  | InvalidData
  | Other (msg : String)
  deriving DecidableEq, Repr

/-- Contract call failed error (`CallError` in the source). -/
inductive CallError where
  | CallFailed (msg : String)
  | DecodeFailed (e : EthabiError)
  | NotFullClient
  | TransactionFailed (e : transaction.Error)
  deriving DecidableEq, Repr

/-- A decoder for constant-call return values
(`ethabi::FunctionOutputDecoder` with `Output = Out`). -/
abbrev FunctionOutputDecoder (Out : Type) := Bytes → Except EthabiError Out

/-- The full client obtained from `EngineClient::as_full_client`: the two
primitives the verified file invokes on it.  `call_contract` is a function of
its arguments (fixed chain state); `transact` returns the acceptance verdict
of the submission layer. -/
structure FullClient where
  call_contract : BlockId → Address → Bytes → Except String Bytes
  transact : transaction.Action → Bytes → Option Nat → Option Nat → Except transaction.Error Unit

/-- The engine client reference held by a binding; `as_full_client` is the
capability check (`none` models a light client). -/
structure EngineClient where
  as_full_client : Option FullClient

/-- A contract bound to a client and block number (`BoundContract` in the
source): a client reference, a `BlockId` and a contract `Address`. -/
structure BoundContract where
  client : EngineClient
  block_id : BlockId
  contract_addr : Address

/-- Observable events of one operation: invocations of the two client
primitives, and diagnostic warning records (`warn!` in the source). -/
inductive Event where
  | call_contract_invoked (block_id : BlockId) (addr : Address) (data : Bytes)
  | transact_invoked (action : transaction.Action) (data : Bytes) (gas : Option Nat)
      (gas_price : Option Nat)
  | warn (err : transaction.Error)

/-- Whether an event is a diagnostic warning record. -/
def Event.is_diagnostic : Event → Bool
  | Event.warn _ => true
  | _ => false

/-- Number of diagnostic warning records in a trace. -/
def warnCount (evs : List Event) : Nat :=
  (evs.filter Event.is_diagnostic).length

/-- Create a new `BoundContract` (`BoundContract::bind` in the source). -/
def BoundContract.bind (client : EngineClient) (block_id : BlockId)
    (contract_addr : Address) : BoundContract :=
  { client := client, block_id := block_id, contract_addr := contract_addr }

/-- Perform a function call to an ethereum machine that does not create a
transaction or change the state (`BoundContract::call_const` in the source).
Returns the result together with the trace of primitive invocations. -/
def BoundContract.call_const {Out : Type} (bc : BoundContract)
    (call : Bytes × FunctionOutputDecoder Out) :
    Except CallError Out × List Event :=
  let data := call.1
  let output_decoder := call.2
  match bc.client.as_full_client with
  | none => (Except.error CallError.NotFullClient, [])
  | some cl =>
    let ev := Event.call_contract_invoked bc.block_id bc.contract_addr data
    match cl.call_contract bc.block_id bc.contract_addr data with
    | Except.error e => (Except.error (CallError.CallFailed e), [ev])
    | Except.ok call_return =>
      match output_decoder call_return with
      | Except.error e => (Except.error (CallError.DecodeFailed e), [ev])
      | Except.ok v => (Except.ok v, [ev])

/-- Schedules a service transaction (with gas price zero) that calls a
contract (`BoundContract::schedule_service_transaction` in the source).  The
second component of `call` carries no trait bound in the source and is
discarded.  Returns the result together with the trace of primitive
invocations and warnings. -/
def BoundContract.schedule_service_transaction {D : Type} (bc : BoundContract)
    (call : Bytes × D) : Except CallError Unit × List Event :=
  let data := call.1
  match bc.client.as_full_client with
  | none => (Except.error CallError.NotFullClient, [])
  | some cl =>
    let ev := Event.transact_invoked (transaction.Action.Call bc.contract_addr) data none (some 0)
    match cl.transact (transaction.Action.Call bc.contract_addr) data none (some 0) with
    | Except.ok () => (Except.ok (), [ev])
    | Except.error transaction.Error.AlreadyImported => (Except.ok (), [ev])
    | Except.error transaction.Error.Old =>
        (Except.ok (), [ev, Event.warn transaction.Error.Old])
    | Except.error err => (Except.error (CallError.TransactionFailed err), [ev])

/-- A submitted transaction as built by the submission layer. -/
structure Transaction where
  action : transaction.Action
  data : Bytes
  value : Nat
  gas : Option Nat
  gas_price : Nat

/-- Modelled from the spec: `Client::transact`, the submission primitive, is
not part of the verified file; per the spec it builds a transaction targeting
the given address, carrying the payload, with zero value, and with the gas
price override applied (the client chooses a sensible gas price of its own
when no override is given). -/
def submitted_transaction (action : transaction.Action) (data : Bytes)
    (gas : Option Nat) (gas_price_override : Option Nat)
    (client_gas_price : Nat) : Transaction :=
  { action := action, data := data, value := 0, gas := gas,
    gas_price := gas_price_override.getD client_gas_price }

/-- The local pending-transaction pool, as a list of submitted calls. -/
abbrev Pool := List (transaction.Action × Bytes)

/-- Modelled from the spec: the pending-transaction pool and its admission
rule live outside the verified file; per the spec a submission identical to a
transaction already pending is rejected as `AlreadyImported`, and otherwise
the submission is accepted and enters the pool. -/
def pool_transact (pool : Pool) (action : transaction.Action) (data : Bytes)
    (_gas : Option Nat) (_gas_price : Option Nat) :
    Except transaction.Error Unit × Pool :=
  if (action, data) ∈ pool then (Except.error transaction.Error.AlreadyImported, pool)
  else (Except.ok (), (action, data) :: pool)

/-- An engine client whose submission primitive is backed by the modelled
pending pool (its read primitive is irrelevant to the write path). -/
def client_of_pool (pool : Pool) : EngineClient :=
  { as_full_client := some
      { call_contract := fun _ _ _ => Except.ok []
        transact := fun a d g gp => (pool_transact pool a d g gp).1 } }

/-- Replay one traced event against the pool: a submission mutates the pool
per the modelled admission rule, other events leave it unchanged. -/
def apply_event (pool : Pool) : Event → Pool
  | Event.transact_invoked a d g gp => (pool_transact pool a d g gp).2
  | _ => pool

/-- Run `schedule_service_transaction` on a pool-backed client: returns the
call result and the pool after replaying the traced submissions. -/
def run_schedule_pool (block_id : BlockId) (addr : Address) {D : Type} (d : D)
    (data : Bytes) (pool : Pool) : Except CallError Unit × Pool :=
  let r := (BoundContract.bind (client_of_pool pool) block_id addr).schedule_service_transaction
    (data, d)
  (r.1, r.2.foldl apply_event pool)

/-- A full client whose pool accepts every submission. -/
def fc_accept : FullClient :=
  { call_contract := fun _ _ _ => Except.ok [1]
    transact := fun _ _ _ _ => Except.ok () }

/-- A full client whose pool rejects every submission as stale. -/
def fc_stale : FullClient :=
  { call_contract := fun _ _ _ => Except.ok [1]
    transact := fun _ _ _ _ => Except.error transaction.Error.Old }

/-- A client reference lacking full capability. -/
def ec_light : EngineClient := { as_full_client := none }

/-- A boolean output decoder accepting exactly the byte string `[1]`. -/
def dec_bool : FunctionOutputDecoder Bool := fun b =>
  if b = [1] then Except.ok true else Except.error EthabiError.InvalidData

/-- C9: `bind` is a pure constructor: it returns a `BoundContract` holding
exactly the given client reference, block selector and contract address, with
no validation of the address or of the client capability and no side effect. -/
theorem bind_pure_constructor (client : EngineClient) (block_id : BlockId)
    (addr : Address) :
    BoundContract.bind client block_id addr =
      { client := client, block_id := block_id, contract_addr := addr } ∧
    (BoundContract.bind client block_id addr).client = client ∧
    (BoundContract.bind client block_id addr).block_id = block_id ∧
    (BoundContract.bind client block_id addr).contract_addr = addr :=
  ⟨rfl, rfl, rfl, rfl⟩

/-- C7: the result of `schedule_service_transaction` does not depend on the
second (decoder) component of the call pair: two calls agreeing on the payload
bytes give equal results even for decoder components of different types. -/
theorem schedule_decoder_independent (bc : BoundContract) {D E : Type}
    (d : D) (e : E) (data : Bytes) :
    bc.schedule_service_transaction (data, d) =
      bc.schedule_service_transaction (data, e) := rfl

/-- C6: both operations are total over the closed error taxonomy: every
outcome is a success or one of the four `CallError` variants. -/
theorem operations_total_closed_taxonomy (bc : BoundContract) {Out D : Type}
    (dec : FunctionOutputDecoder Out) (d : D) (data payload : Bytes) :
    ((∃ v, (bc.call_const (data, dec)).1 = Except.ok v) ∨
      (∃ s, (bc.call_const (data, dec)).1 = Except.error (CallError.CallFailed s)) ∨
      (∃ er, (bc.call_const (data, dec)).1 = Except.error (CallError.DecodeFailed er)) ∨
      (bc.call_const (data, dec)).1 = Except.error CallError.NotFullClient ∨
      (∃ t, (bc.call_const (data, dec)).1 =
        Except.error (CallError.TransactionFailed t))) ∧
    ((∃ v, (bc.schedule_service_transaction (payload, d)).1 = Except.ok v) ∨
      (∃ s, (bc.schedule_service_transaction (payload, d)).1 =
        Except.error (CallError.CallFailed s)) ∨
      (∃ er, (bc.schedule_service_transaction (payload, d)).1 =
        Except.error (CallError.DecodeFailed er)) ∨
      (bc.schedule_service_transaction (payload, d)).1 =
        Except.error CallError.NotFullClient ∨
      (∃ t, (bc.schedule_service_transaction (payload, d)).1 =
        Except.error (CallError.TransactionFailed t))) := by
  constructor
  · rcases hr : (bc.call_const (data, dec)).1 with er | v
    · cases er with
      | CallFailed s => exact Or.inr (Or.inl ⟨s, rfl⟩)
      | DecodeFailed er => exact Or.inr (Or.inr (Or.inl ⟨er, rfl⟩))
      | NotFullClient => exact Or.inr (Or.inr (Or.inr (Or.inl rfl)))
      | TransactionFailed t => exact Or.inr (Or.inr (Or.inr (Or.inr ⟨t, rfl⟩)))
    · exact Or.inl ⟨v, rfl⟩
  · rcases hr : (bc.schedule_service_transaction (payload, d)).1 with er | v
    · cases er with
      | CallFailed s => exact Or.inr (Or.inl ⟨s, rfl⟩)
      | DecodeFailed er => exact Or.inr (Or.inr (Or.inl ⟨er, rfl⟩))
      | NotFullClient => exact Or.inr (Or.inr (Or.inr (Or.inl rfl)))
      | TransactionFailed t => exact Or.inr (Or.inr (Or.inr (Or.inr ⟨t, rfl⟩)))
    · exact Or.inl ⟨v, rfl⟩

/-- C2: when the capability check yields absence, both operations return
`NotFullClient` and the trace is empty: neither primitive is invoked and no
side effect occurs. -/
theorem not_full_client_no_side_effects (bc : BoundContract)
    (h : bc.client.as_full_client = none) {Out D : Type}
    (dec : FunctionOutputDecoder Out) (d : D) (data payload : Bytes) :
    bc.call_const (data, dec) = (Except.error CallError.NotFullClient, []) ∧
    bc.schedule_service_transaction (payload, d) =
      (Except.error CallError.NotFullClient, []) := by
  unfold BoundContract.call_const BoundContract.schedule_service_transaction
  rw [h]
  exact ⟨rfl, rfl⟩

/-- Witness for C2 at the light client. -/
theorem not_full_client_no_side_effects_witness :
    (BoundContract.bind ec_light BlockId.Latest 5).call_const ([2], dec_bool) =
      (Except.error CallError.NotFullClient, []) ∧
    (BoundContract.bind ec_light BlockId.Latest 5).schedule_service_transaction
        ([3], ()) = (Except.error CallError.NotFullClient, []) :=
  not_full_client_no_side_effects (BoundContract.bind ec_light BlockId.Latest 5)
    rfl dec_bool () [2] [3]

/-- C3: with a full client, `call_const` maps a failing read execution with
diagnostic `diag` to `CallFailed diag`, a successful execution whose bytes the
decoder rejects with `er` to `DecodeFailed er`, and a successful execution
whose bytes decode to `v` to success with `v`. -/
theorem call_const_case_analysis (bc : BoundContract) (cl : FullClient)
    (h : bc.client.as_full_client = some cl) {Out : Type}
    (dec : FunctionOutputDecoder Out) (data : Bytes) :
    (∀ diag, cl.call_contract bc.block_id bc.contract_addr data = Except.error diag →
      (bc.call_const (data, dec)).1 = Except.error (CallError.CallFailed diag)) ∧
    (∀ b er, cl.call_contract bc.block_id bc.contract_addr data = Except.ok b →
      dec b = Except.error er →
      (bc.call_const (data, dec)).1 = Except.error (CallError.DecodeFailed er)) ∧
    (∀ b v, cl.call_contract bc.block_id bc.contract_addr data = Except.ok b →
      dec b = Except.ok v →
      (bc.call_const (data, dec)).1 = Except.ok v) := by
  unfold BoundContract.call_const
  rw [h]
  refine ⟨fun diag hd => ?_, fun b er hb her => ?_, fun b v hb hv => ?_⟩
  · simp only [hd]
  · simp only [hb, her]
  · simp only [hb, hv]

/-- Witness for C3: a client returning `[1]` with the boolean decoder yields
success `true`. -/
theorem call_const_case_analysis_witness :
    ((BoundContract.bind { as_full_client := some fc_accept } BlockId.Latest 5).call_const
        ([2], dec_bool)).1 = Except.ok true :=
  (call_const_case_analysis
      (BoundContract.bind { as_full_client := some fc_accept } BlockId.Latest 5)
      fc_accept rfl dec_bool [2]).2.2 [1] true rfl rfl

/-- C1: with a full client, `schedule_service_transaction` maps the submission
outcome as follows: acceptance gives success with no diagnostic; rejection as
`AlreadyImported` gives success with no diagnostic; rejection as `Old` gives
success and exactly one diagnostic warning record; every other rejection
reason `err` gives `TransactionFailed err` with `err` preserved unchanged. -/
theorem schedule_outcome_mapping (bc : BoundContract) (cl : FullClient)
    (h : bc.client.as_full_client = some cl) {D : Type} (d : D) (data : Bytes) :
    (cl.transact (transaction.Action.Call bc.contract_addr) data none (some 0) =
        Except.ok () →
      (bc.schedule_service_transaction (data, d)).1 = Except.ok () ∧
      warnCount (bc.schedule_service_transaction (data, d)).2 = 0) ∧
    (cl.transact (transaction.Action.Call bc.contract_addr) data none (some 0) =
        Except.error transaction.Error.AlreadyImported →
      (bc.schedule_service_transaction (data, d)).1 = Except.ok () ∧
      warnCount (bc.schedule_service_transaction (data, d)).2 = 0) ∧
    (cl.transact (transaction.Action.Call bc.contract_addr) data none (some 0) =
        Except.error transaction.Error.Old →
      (bc.schedule_service_transaction (data, d)).1 = Except.ok () ∧
      warnCount (bc.schedule_service_transaction (data, d)).2 = 1) ∧
    (∀ err : transaction.Error, err ≠ transaction.Error.AlreadyImported →
      err ≠ transaction.Error.Old →
      cl.transact (transaction.Action.Call bc.contract_addr) data none (some 0) =
        Except.error err →
      (bc.schedule_service_transaction (data, d)).1 =
        Except.error (CallError.TransactionFailed err)) := by
  unfold BoundContract.schedule_service_transaction
  rw [h]
  dsimp only
  refine ⟨fun hok => ?_, fun hdup => ?_, fun hold => ?_,
    fun err hne1 hne2 herr => ?_⟩
  · rw [hok]
    exact ⟨rfl, rfl⟩
  · rw [hdup]
    exact ⟨rfl, rfl⟩
  · rw [hold]
    exact ⟨rfl, rfl⟩
  · rw [herr]
    cases err <;> first | rfl | simp_all

/-- Witness for C1: a client rejecting every submission as stale yields
success with exactly one diagnostic warning record. -/
theorem schedule_outcome_mapping_witness :
    ((BoundContract.bind { as_full_client := some fc_stale } BlockId.Latest 5).schedule_service_transaction
        ([2], ())).1 = Except.ok () ∧
    warnCount
      ((BoundContract.bind { as_full_client := some fc_stale } BlockId.Latest 5).schedule_service_transaction
        ([2], ())).2 = 1 :=
  (schedule_outcome_mapping
      (BoundContract.bind { as_full_client := some fc_stale } BlockId.Latest 5)
      fc_stale rfl () [2]).2.2.1 rfl

/-- Every submission event traced by `schedule_service_transaction` carries
exactly the arguments the source passes to `Client::transact`. -/
theorem schedule_transact_event_shape (bc : BoundContract) {D : Type} (d : D)
    (data : Bytes) (a : transaction.Action) (pd : Bytes) (g gp : Option Nat)
    (hmem : Event.transact_invoked a pd g gp ∈
      (bc.schedule_service_transaction (data, d)).2) :
    a = transaction.Action.Call bc.contract_addr ∧ pd = data ∧ g = none ∧
      gp = some 0 := by
  unfold BoundContract.schedule_service_transaction at hmem
  rcases hc : bc.client.as_full_client with _ | cl
  · rw [hc] at hmem
    simp at hmem
  · rw [hc] at hmem
    dsimp only at hmem
    rcases hr : cl.transact (transaction.Action.Call bc.contract_addr) data none
        (some 0) with err | u
    · rw [hr] at hmem
      cases err <;> simp_all
  
    · rw [hr] at hmem
      simp_all

/-- C10: on every invocation of the submission primitive by
`schedule_service_transaction`, the gas argument is unset (`none`), delegating
the gas-limit choice to the client, while the gas-price argument is `some 0`. -/
theorem schedule_gas_unset_gas_price_zero (bc : BoundContract) {D : Type}
    (d : D) (data : Bytes) (a : transaction.Action) (pd : Bytes)
    (g gp : Option Nat)
    (hmem : Event.transact_invoked a pd g gp ∈
      (bc.schedule_service_transaction (data, d)).2) :
    g = none ∧ gp = some 0 :=
  ⟨(schedule_transact_event_shape bc d data a pd g gp hmem).2.2.1,
   (schedule_transact_event_shape bc d data a pd g gp hmem).2.2.2⟩

/-- Witness for C10 on an accepting client: the traced submission has gas
`none` and gas price `some 0`. -/
theorem schedule_gas_unset_gas_price_zero_witness :
    (none : Option Nat) = none ∧ (some 0 : Option Nat) = some 0 :=
  schedule_gas_unset_gas_price_zero
    (BoundContract.bind { as_full_client := some fc_accept } BlockId.Latest 5)
    () [2] (transaction.Action.Call 5) [2] none (some 0)
    (by simp [BoundContract.schedule_service_transaction, BoundContract.bind,
      fc_accept])

/-- C4: every transaction submitted by `schedule_service_transaction` targets
the bound contract address and, through the modelled submission layer, carries
value `0` and gas price `0`, whatever the payload and whatever gas price the
client would otherwise choose. -/
theorem schedule_submits_zero_value_zero_gas_price (bc : BoundContract)
    {D : Type} (d : D) (data : Bytes) (a : transaction.Action) (pd : Bytes)
    (g gp : Option Nat)
    (hmem : Event.transact_invoked a pd g gp ∈
      (bc.schedule_service_transaction (data, d)).2) :
    ∀ client_gas_price : Nat,
      (submitted_transaction a pd g gp client_gas_price).action =
        transaction.Action.Call bc.contract_addr ∧
      (submitted_transaction a pd g gp client_gas_price).value = 0 ∧
      (submitted_transaction a pd g gp client_gas_price).gas_price = 0 := by
  intro cgp
  obtain ⟨ha, _, _, hgp⟩ := schedule_transact_event_shape bc d data a pd g gp hmem
  subst ha hgp
  exact ⟨rfl, rfl, rfl⟩

/-- Witness for C4 on an accepting client with client gas price 7: the
submitted transaction targets the bound address with zero value and zero gas
price. -/
theorem schedule_submits_zero_value_zero_gas_price_witness :
    (submitted_transaction (transaction.Action.Call 5) [2] none (some 0) 7).action =
      transaction.Action.Call 5 ∧
    (submitted_transaction (transaction.Action.Call 5) [2] none (some 0) 7).value = 0 ∧
    (submitted_transaction (transaction.Action.Call 5) [2] none (some 0) 7).gas_price = 0 :=
  schedule_submits_zero_value_zero_gas_price
    (BoundContract.bind { as_full_client := some fc_accept } BlockId.Latest 5)
    () [2] (transaction.Action.Call 5) [2] none (some 0)
    (by simp [BoundContract.schedule_service_transaction, BoundContract.bind,
      fc_accept]) 7

/-- The trace of `call_const` is empty or a single read invocation of the
bound block and address. -/
theorem call_const_trace_shape (bc : BoundContract) {Out : Type}
    (dec : FunctionOutputDecoder Out) (data : Bytes) :
    (bc.call_const (data, dec)).2 = [] ∨
    (bc.call_const (data, dec)).2 =
      [Event.call_contract_invoked bc.block_id bc.contract_addr data] := by
  unfold BoundContract.call_const
  rcases hc : bc.client.as_full_client with _ | cl
  · exact Or.inl rfl
  · dsimp only
    rcases hr : cl.call_contract bc.block_id bc.contract_addr data with e | b
    · exact Or.inr rfl
    · dsimp only
      rcases hd : dec b with e | v
      · exact Or.inr rfl
      · exact Or.inr rfl

/-- C8: `call_const` is deterministic — equal results on repeated invocation
with the same binding, payload and decoder — and mutates no state: its trace
holds read invocations only (no submission, no warning), and replaying the
trace leaves any pending pool unchanged. -/
theorem call_const_deterministic_no_mutation (bc : BoundContract) {Out : Type}
    (dec : FunctionOutputDecoder Out) (data : Bytes) :
    bc.call_const (data, dec) = bc.call_const (data, dec) ∧
    (∀ e ∈ (bc.call_const (data, dec)).2,
      ∃ b a pd, e = Event.call_contract_invoked b a pd) ∧
    (∀ pool : Pool, ((bc.call_const (data, dec)).2).foldl apply_event pool = pool) := by
  refine ⟨rfl, ?_, ?_⟩
  · intro e he
    rcases call_const_trace_shape bc dec data with hs | hs <;> rw [hs] at he
    · simp at he
    · simp at he
      exact ⟨bc.block_id, bc.contract_addr, data, he⟩
  · intro pool
    rcases call_const_trace_shape bc dec data with hs | hs <;> rw [hs]
    · rfl
    · simp [apply_event]

/-- Witness for C8: on an accepting client the single traced event is a read
invocation and replaying the trace leaves the empty pool empty. -/
theorem call_const_deterministic_no_mutation_witness :
    (∃ b a pd,
      Event.call_contract_invoked BlockId.Latest 5 [2] =
        Event.call_contract_invoked b a pd) ∧
    (((BoundContract.bind { as_full_client := some fc_accept } BlockId.Latest 5).call_const
        ([2], dec_bool)).2).foldl apply_event [] = [] :=
  ⟨(call_const_deterministic_no_mutation
      (BoundContract.bind { as_full_client := some fc_accept } BlockId.Latest 5)
      dec_bool [2]).2.1
      (Event.call_contract_invoked BlockId.Latest 5 [2])
      (by simp [BoundContract.call_const, BoundContract.bind, fc_accept, dec_bool]),
   (call_const_deterministic_no_mutation
      (BoundContract.bind { as_full_client := some fc_accept } BlockId.Latest 5)
      dec_bool [2]).2.2 []⟩

/-- C5: on a pool-backed full client whose pool does not yet hold the call,
the first submission is accepted and the write-call succeeds; the second,
identical submission is rejected by the pool as already pending, and the
write-call maps that rejection to success as well — success both times. -/
theorem schedule_idempotent_on_pool (block_id : BlockId) (addr : Address)
    {D : Type} (d : D) (data : Bytes) (pool : Pool)
    (h : (transaction.Action.Call addr, data) ∉ pool) :
    (pool_transact pool (transaction.Action.Call addr) data none (some 0)).1 =
      Except.ok () ∧
    (run_schedule_pool block_id addr d data pool).1 = Except.ok () ∧
    (pool_transact (run_schedule_pool block_id addr d data pool).2
        (transaction.Action.Call addr) data none (some 0)).1 =
      Except.error transaction.Error.AlreadyImported ∧
    (run_schedule_pool block_id addr d data
        (run_schedule_pool block_id addr d data pool).2).1 = Except.ok () := by
  have h1 : run_schedule_pool block_id addr d data pool =
      (Except.ok (), (transaction.Action.Call addr, data) :: pool) := by
    simp [run_schedule_pool, BoundContract.schedule_service_transaction,
      BoundContract.bind, client_of_pool, pool_transact, apply_event, h]
  have hmem : (transaction.Action.Call addr, data) ∈
      (transaction.Action.Call addr, data) :: pool := List.mem_cons_self _ _
  refine ⟨by simp [pool_transact, h], by rw [h1], ?_, ?_⟩
  · rw [h1]
    simp [pool_transact, hmem]
  · rw [h1]
    simp [run_schedule_pool, BoundContract.schedule_service_transaction,
      BoundContract.bind, client_of_pool, pool_transact, apply_event, hmem]

/-- Witness for C5: starting from the empty pool, both submissions of the
same payload succeed and the second raw outcome is `AlreadyImported`. -/
theorem schedule_idempotent_on_pool_witness :
    (run_schedule_pool BlockId.Latest 7 () [1] []).1 = Except.ok () ∧
    (run_schedule_pool BlockId.Latest 7 () [1]
        (run_schedule_pool BlockId.Latest 7 () [1] []).2).1 = Except.ok () :=
  ⟨(schedule_idempotent_on_pool BlockId.Latest 7 () [1] []
      (List.not_mem_nil _)).2.1,
   (schedule_idempotent_on_pool BlockId.Latest 7 () [1] []
      (List.not_mem_nil _)).2.2.2⟩
